import Mathlib

/-
Verification of the live resource synchronization engine of DesignSynapse,
embedded from src/client/src/hooks/usedesignpreview.js.  The hook keeps a
locally held design snapshot up to date from an initial fetch, a WebSocket
message stream, an optional polling interval, and explicit patch and
validate calls.  JavaScript objects are embedded as association lists of
string keys, and the object-spread merge performed by the onmessage handler
is embedded with its JavaScript semantics, including the spread of
non-object values.
-/

namespace DesignSynapse

/-- A JSON value as produced by JSON.parse and carried through the hook
state: null, booleans, numbers, strings, and objects given as key-value
lists.  Numbers are embedded as integers, which covers every value the
protocol examples use. -/
inductive Val where
  | null : Val
  | bool : Bool → Val
  | num : Int → Val
  | str : String → Val
  | obj : List (String × Val) → Val

/-- Property lookup on an embedded object: the value bound to the first
occurrence of the key, scanning left to right. -/
def lookup : List (String × Val) → String → Option Val
  | [], _ => none
  | (k1, v1) :: rest, key => if k1 = key then some v1 else lookup rest key

/-- Own enumerable properties a JavaScript value contributes under object
spread: an object contributes its entries, a string contributes one entry
per character indexed by its decimal position, and null, booleans and
numbers contribute nothing. -/
def ownProps : Val → List (String × Val)
  | Val.obj o => o
  | Val.str s => (s.toList.enum).map (fun p => (toString p.1, Val.str (toString p.2)))
  | _ => []

/-- The object-spread merge: entries of the first list whose key does not
occur in the second list, followed by the second list, so that for every
key the second operand wins.  This is the lookup semantics of the
JavaScript spread of two property lists in that order. -/
def mergeObj : List (String × Val) → List (String × Val) → List (String × Val)
  | [], b => b
  | p :: rest, b =>
    match lookup b p.1 with
    | none => p :: mergeObj rest b
    | some _ => mergeObj rest b

/-- The functional update performed by the onmessage handler at
src/client/src/hooks/usedesignpreview.js lines 39 to 42: the new design is
the object whose properties are the previous design spread first and the
parsed update spread second. -/
def applyMessage (prevDesign update : Val) : Val :=
  Val.obj (mergeObj (ownProps prevDesign) (ownProps update))

/-- Reads a numeric property off the own properties of a value. -/
def asNum : Option Val → Option Int
  | some (Val.num n) => some n
  | _ => none

/-- The spec revision marker read off a snapshot: the numeric value of its
revision property, when present. -/
def revisionOf (v : Val) : Option Int :=
  asNum (lookup (ownProps v) "revision")

/-- A numeric field of a snapshot, by key. -/
def numField (v : Val) (k : String) : Option Int :=
  asNum (lookup (ownProps v) k)

/-- A JavaScript error value, identified by its message. -/
structure JsError where
  message : String
  deriving DecidableEq

/-- The state held by the hook: the design snapshot (initially null), the
loading flag, and the last recorded error. -/
structure HookState where
  design : Val
  loading : Bool
  error : Option JsError

/-- The state the hook starts in: design null, loading true, no error,
from the useState initializers at lines 5 to 7. -/
def initialState : HookState :=
  { design := Val.null, loading := true, error := none }

/-- The fetchDesign handler, lines 17 to 28: on a successful response the
design is replaced wholesale by the response body and the error is
cleared; on failure the error is recorded and the design is untouched; in
both cases loading becomes false. -/
def fetchDesign (s : HookState) (result : Except JsError Val) : HookState :=
  match result with
  | Except.ok data => { s with design := data, error := none, loading := false }
  | Except.error e => { s with error := some e, loading := false }

/-- The WebSocket onmessage handler, lines 37 to 43, applied to the result
of JSON.parse on the message text: when parsing throws, the exception
leaves the handler without touching the state; when parsing yields a
value, the design becomes the spread merge of the previous design and the
parsed value.  No revision comparison is performed. -/
def onmessage (s : HookState) (parsed : Option Val) : HookState :=
  match parsed with
  | none => s
  | some update => { s with design := applyMessage s.design update }

/-- The WebSocket onerror handler, lines 45 to 48: records the error. -/
def onerror (s : HookState) (e : JsError) : HookState :=
  { s with error := some e }

/-- The refresh function, lines 74 to 77: sets loading true and triggers a
fetch whose settlement is a fetchDesign step. -/
def refresh (s : HookState) : HookState :=
  { s with loading := true }

/-- The updateDesign handler, lines 80 to 89, applied to the settled patch
request: on success the design is replaced wholesale by the response body,
which is also returned; on failure the error is recorded and rethrown and
the design is untouched.  The partial fields sent are only ever passed to
the request and never reach the state. -/
def updateDesign (s : HookState) (updates : Val) (result : Except JsError Val) :
    HookState × Except JsError Val :=
  match result with
  | Except.ok data => ({ s with design := data }, Except.ok data)
  | Except.error e => ({ s with error := some e }, Except.error e)

/-- The validateChanges handler, lines 92 to 100, applied to the settled
validation request: on success the response is returned and the state is
untouched; on failure the error is recorded and rethrown. -/
def validateChanges (s : HookState) (changes : Val) (result : Except JsError Val) :
    HookState × Except JsError Val :=
  match result with
  | Except.ok data => (s, Except.ok data)
  | Except.error e => ({ s with error := some e }, Except.error e)

/-- The ready states of a WebSocket. -/
inductive ReadyState where
  | connecting
  | opened
  | closing
  | closed
  deriving DecidableEq

/-- The isRealtime observable returned by the hook, line 109: true exactly
when a socket exists and its ready state is OPEN. -/
def isRealtime (socket : Option ReadyState) : Bool :=
  match socket with
  | some ReadyState.opened => true
  | _ => false

/-- The guard of the polling effect, lines 60 to 66: the interval is
installed exactly when autoUpdate is true and enableRealtime is false; the
guard depends only on the options, never on the socket state. -/
def pollingActive (autoUpdate enableRealtime : Bool) : Bool :=
  autoUpdate && !enableRealtime

/-- The connection modes named by the spec. -/
inductive ConnectionMode where
  | disconnected
  | push
  | poll
  deriving DecidableEq

/-- Modelled from the spec: the connectionMode observable of section 3 does
not exist in the hook; it is read off the code state as push while the
socket is open, poll while the polling interval is installed, and
disconnected otherwise. -/
def specConnectionMode (socket : Option ReadyState) (autoUpdate enableRealtime : Bool) :
    ConnectionMode :=
  if isRealtime socket then ConnectionMode.push
  else if pollingActive autoUpdate enableRealtime then ConnectionMode.poll
  else ConnectionMode.disconnected

theorem asNum_eq_some (o : Option Val) (n : Int) (h : asNum o = some n) :
    o = some (Val.num n) := by
  cases o with
  | none => exact absurd h (by simp [asNum])
  | some w =>
    cases w with
    | null => exact absurd h (by simp [asNum])
    | bool b => exact absurd h (by simp [asNum])
    | num m =>
      have hm : m = n := by simpa [asNum] using h
      rw [hm]
    | str s => exact absurd h (by simp [asNum])
    | obj o2 => exact absurd h (by simp [asNum])

theorem lookup_mergeObj (a b : List (String × Val)) (k : String) :
    lookup (mergeObj a b) k =
      match lookup b k with
      | some w => some w
      | none => lookup a k := by
  induction a with
  | nil =>
    cases hb : lookup b k with
    | none => simp [mergeObj, lookup, hb]
    | some w => simp [mergeObj, hb]
  | cons p rest ih =>
    obtain ⟨k1, v1⟩ := p
    cases hb1 : lookup b k1 with
    | none =>
      have hmerge : mergeObj ((k1, v1) :: rest) b = (k1, v1) :: mergeObj rest b := by
        simp [mergeObj, hb1]
      by_cases hk : k1 = k
      · subst hk
        rw [hmerge, hb1]
        simp [lookup]
      · rw [hmerge]
        cases hbk : lookup b k with
        | none => simp [lookup, hk, ih, hbk]
        | some w => simp [lookup, hk, ih, hbk]
    | some w1 =>
      have hmerge : mergeObj ((k1, v1) :: rest) b = mergeObj rest b := by
        simp [mergeObj, hb1]
      rw [hmerge, ih]
      by_cases hk : k1 = k
      · subst hk
        rw [hb1]
      · cases hbk : lookup b k with
        | none => simp [lookup, hk]
        | some w => simp

/-- C1: counterexample.  The current snapshot holds revision 2; the
inbound push update carries revision 1, which is not strictly newer, so
per the claim applying it must leave the snapshot completely unchanged.
The onmessage merge instead overwrites the area field with 90 and lowers
the revision to 1: the snapshot changes and its revision decreases. -/
theorem c1_stale_update_counterexample :
    revisionOf (Val.obj [("area", Val.num 120), ("revision", Val.num 2)]) = some 2 ∧
    revisionOf (applyMessage (Val.obj [("area", Val.num 120), ("revision", Val.num 2)])
      (Val.obj [("area", Val.num 90), ("revision", Val.num 1)])) = some 1 ∧
    numField (applyMessage (Val.obj [("area", Val.num 120), ("revision", Val.num 2)])
      (Val.obj [("area", Val.num 90), ("revision", Val.num 1)])) "area" = some 90 ∧
    applyMessage (Val.obj [("area", Val.num 120), ("revision", Val.num 2)])
      (Val.obj [("area", Val.num 90), ("revision", Val.num 1)]) ≠
      Val.obj [("area", Val.num 120), ("revision", Val.num 2)] := by
  refine ⟨rfl, rfl, rfl, ?_⟩
  intro h
  have h2 : (some (1 : Int)) = some 2 := congrArg revisionOf h
  exact absurd h2 (by decide)

/-- C1 (amended): the onmessage handler performs no revision comparison at
all.  Every parsed inbound update is merged into the snapshot
unconditionally, key by key, and the resulting revision equals the
incoming revision whenever the update carries one, even when that revision
is lower than or equal to the current one: stale updates are not dropped
and the revision can decrease. -/
theorem c1_amended_unconditional_merge (prev upd : Val) (ru : Int)
    (h : revisionOf upd = some ru) :
    revisionOf (applyMessage prev upd) = some ru ∧
    ∀ k, lookup (ownProps (applyMessage prev upd)) k =
      match lookup (ownProps upd) k with
      | some w => some w
      | none => lookup (ownProps prev) k := by
  have hU : lookup (ownProps upd) "revision" = some (Val.num ru) :=
    asNum_eq_some _ _ h
  constructor
  · show asNum (lookup (ownProps (applyMessage prev upd)) "revision") = some ru
    have hm : ownProps (applyMessage prev upd) =
        mergeObj (ownProps prev) (ownProps upd) := rfl
    rw [hm, lookup_mergeObj, hU]
    rfl
  · intro k
    exact lookup_mergeObj _ _ k

/-- C1 (amended) witness at the stale-update input of the counterexample:
the hypothesis that the update carries revision 1 holds there, and the
merged snapshot takes revision 1 and area 90 from the stale update. -/
theorem c1_amended_witness :
    revisionOf (applyMessage (Val.obj [("area", Val.num 120), ("revision", Val.num 2)])
      (Val.obj [("area", Val.num 90), ("revision", Val.num 1)])) = some 1 ∧
    lookup (ownProps (applyMessage (Val.obj [("area", Val.num 120), ("revision", Val.num 2)])
      (Val.obj [("area", Val.num 90), ("revision", Val.num 1)]))) "area" = some (Val.num 90) :=
  ⟨(c1_amended_unconditional_merge (Val.obj [("area", Val.num 120), ("revision", Val.num 2)])
      (Val.obj [("area", Val.num 90), ("revision", Val.num 1)]) 1 rfl).1,
   (c1_amended_unconditional_merge (Val.obj [("area", Val.num 120), ("revision", Val.num 2)])
      (Val.obj [("area", Val.num 90), ("revision", Val.num 1)]) 1 rfl).2 "area"⟩

/-- C2: for an inbound push update whose revision is strictly greater than
the current revision, the resulting snapshot is the current one
overwritten key by key with exactly the keys of the update, keys absent
from the update keep their current values, and the resulting revision is
the incoming revision. -/
theorem c2_newer_update_overlays (prev upd : Val) (rp ru : Int)
    (hp : revisionOf prev = some rp) (hu : revisionOf upd = some ru)
    (hlt : rp < ru) :
    revisionOf (applyMessage prev upd) = some ru ∧
    (∀ k w, lookup (ownProps upd) k = some w →
      lookup (ownProps (applyMessage prev upd)) k = some w) ∧
    (∀ k, lookup (ownProps upd) k = none →
      lookup (ownProps (applyMessage prev upd)) k = lookup (ownProps prev) k) := by
  have hU : lookup (ownProps upd) "revision" = some (Val.num ru) :=
    asNum_eq_some _ _ hu
  refine ⟨?_, ?_, ?_⟩
  · show asNum (lookup (ownProps (applyMessage prev upd)) "revision") = some ru
    have hm : ownProps (applyMessage prev upd) =
        mergeObj (ownProps prev) (ownProps upd) := rfl
    rw [hm, lookup_mergeObj, hU]
    rfl
  · intro k w hw
    have hmk := lookup_mergeObj (ownProps prev) (ownProps upd) k
    rw [hw] at hmk
    exact hmk
  · intro k hnone
    have hmk := lookup_mergeObj (ownProps prev) (ownProps upd) k
    rw [hnone] at hmk
    exact hmk

/-- C2 witness: a snapshot at revision 1 merged with a push update at
revision 2 takes the new area, keeps the omitted name field, and moves to
revision 2. -/
theorem c2_newer_update_overlays_witness :
    revisionOf (applyMessage
      (Val.obj [("area", Val.num 100), ("name", Val.str "tower"), ("revision", Val.num 1)])
      (Val.obj [("area", Val.num 120), ("revision", Val.num 2)])) = some 2 ∧
    lookup (ownProps (applyMessage
      (Val.obj [("area", Val.num 100), ("name", Val.str "tower"), ("revision", Val.num 1)])
      (Val.obj [("area", Val.num 120), ("revision", Val.num 2)]))) "area" =
      some (Val.num 120) ∧
    lookup (ownProps (applyMessage
      (Val.obj [("area", Val.num 100), ("name", Val.str "tower"), ("revision", Val.num 1)])
      (Val.obj [("area", Val.num 120), ("revision", Val.num 2)]))) "name" =
      some (Val.str "tower") :=
  ⟨(c2_newer_update_overlays
      (Val.obj [("area", Val.num 100), ("name", Val.str "tower"), ("revision", Val.num 1)])
      (Val.obj [("area", Val.num 120), ("revision", Val.num 2)]) 1 2 rfl rfl (by decide)).1,
   (c2_newer_update_overlays
      (Val.obj [("area", Val.num 100), ("name", Val.str "tower"), ("revision", Val.num 1)])
      (Val.obj [("area", Val.num 120), ("revision", Val.num 2)]) 1 2 rfl rfl
      (by decide)).2.1 "area" (Val.num 120) rfl,
   (c2_newer_update_overlays
      (Val.obj [("area", Val.num 100), ("name", Val.str "tower"), ("revision", Val.num 1)])
      (Val.obj [("area", Val.num 120), ("revision", Val.num 2)]) 1 2 rfl rfl
      (by decide)).2.2 "name" rfl⟩

/-- C3: counterexample.  With enableRealtime true and autoUpdate true the
push channel is in use; after it transitions to closed, the polling guard
still evaluates to false, because it reads only the two options and never
the socket state, so no poll timer starts and the connection mode is
disconnected rather than poll. -/
theorem c3_no_poll_fallback_counterexample :
    pollingActive true true = false ∧
    specConnectionMode (some ReadyState.closed) true true = ConnectionMode.disconnected ∧
    specConnectionMode (some ReadyState.closed) true true ≠ ConnectionMode.poll := by
  decide

/-- C3 (amended): whenever enableRealtime is true the poll scheduler is
never started, whatever autoUpdate is and whatever state the socket is in;
a closed push channel leaves the facade disconnected, not polling.
Polling runs only in the configuration with enableRealtime false and
autoUpdate true, from the outset. -/
theorem c3_amended_no_fallback :
    (∀ au : Bool, pollingActive au true = false) ∧
    (∀ (au : Bool) (rs : ReadyState), rs ≠ ReadyState.opened →
      specConnectionMode (some rs) au true = ConnectionMode.disconnected) ∧
    specConnectionMode none true false = ConnectionMode.poll := by
  refine ⟨?_, ?_, by decide⟩
  · intro au
    cases au <;> rfl
  · intro au rs h
    cases rs with
    | connecting => cases au <;> rfl
    | opened => exact absurd rfl h
    | closing => cases au <;> rfl
    | closed => cases au <;> rfl

/-- C3 (amended) witness at a closing socket with both options true. -/
theorem c3_amended_witness :
    pollingActive true true = false ∧
    specConnectionMode (some ReadyState.closing) true true = ConnectionMode.disconnected ∧
    specConnectionMode none true false = ConnectionMode.poll :=
  ⟨c3_amended_no_fallback.1 true,
   c3_amended_no_fallback.2.1 true ReadyState.closing (by decide),
   c3_amended_no_fallback.2.2⟩

/-- C4: counterexample.  The snapshot holds revision 3; a successful patch
returns a body at revision 1, not strictly newer, so per the claim the
response must be dropped and the snapshot left unchanged.  The
updateDesign handler instead assigns the response wholesale: the snapshot
regresses to revision 1. -/
theorem c4_patch_overwrite_counterexample :
    revisionOf ((updateDesign
      { design := Val.obj [("area", Val.num 150), ("revision", Val.num 3)],
        loading := false, error := none }
      (Val.obj [("area", Val.num 90)])
      (Except.ok (Val.obj [("area", Val.num 90), ("revision", Val.num 1)]))).1.design) =
      some 1 ∧
    revisionOf (Val.obj [("area", Val.num 150), ("revision", Val.num 3)]) = some 3 ∧
    (updateDesign
      { design := Val.obj [("area", Val.num 150), ("revision", Val.num 3)],
        loading := false, error := none }
      (Val.obj [("area", Val.num 90)])
      (Except.ok (Val.obj [("area", Val.num 90), ("revision", Val.num 1)]))).1.design ≠
      Val.obj [("area", Val.num 150), ("revision", Val.num 3)] := by
  refine ⟨rfl, rfl, ?_⟩
  intro h
  have h2 : (some (1 : Int)) = some 3 := congrArg revisionOf h
  exact absurd h2 (by decide)

/-- C4 (amended): a successful patch response replaces the snapshot
unconditionally with the response body, with no revision comparison, and
is returned to the caller; the optimistic fields sent with the request are
never applied to the visible snapshot, neither before nor after
confirmation, since the handler ignores them entirely: its result is the
same for any sent fields. -/
theorem c4_amended_patch_replaces (s : HookState) (updates resp : Val) :
    ((updateDesign s updates (Except.ok resp)).1).design = resp ∧
    (updateDesign s updates (Except.ok resp)).2 = Except.ok resp ∧
    ((updateDesign s updates (Except.ok resp)).1).error = s.error ∧
    (∀ u2 : Val, updateDesign s u2 (Except.ok resp) =
      updateDesign s updates (Except.ok resp)) :=
  ⟨rfl, rfl, rfl, fun _ => rfl⟩

/-- C5: when the patch request fails, the error is recorded in the hook
error state and rethrown to the call site, and the snapshot and loading
flag are left completely unchanged. -/
theorem c5_update_failure_atomic (s : HookState) (updates : Val) (e : JsError) :
    ((updateDesign s updates (Except.error e)).1).design = s.design ∧
    ((updateDesign s updates (Except.error e)).1).error = some e ∧
    (updateDesign s updates (Except.error e)).2 = Except.error e ∧
    ((updateDesign s updates (Except.error e)).1).loading = s.loading :=
  ⟨rfl, rfl, rfl, rfl⟩

/-- C6: counterexample.  After a successful initial fetch, a failed poll
tick runs the same fetchDesign catch branch as any fetch and records the
failure in the hook error state, so the error state is some failure, not
none as the claim requires. -/
theorem c6_poll_error_surfaced_counterexample :
    (fetchDesign (fetchDesign initialState
      (Except.ok (Val.obj [("area", Val.num 100), ("revision", Val.num 1)])))
      (Except.error { message := "network down" })).error =
      some { message := "network down" } ∧
    (fetchDesign initialState
      (Except.ok (Val.obj [("area", Val.num 100), ("revision", Val.num 1)]))).error =
      none :=
  ⟨rfl, rfl⟩

/-- C6 (amended): a failed poll tick does surface the failure through the
hook error state, while leaving the snapshot in place; ticking is not
stopped by the failure, and a subsequent successful tick replaces the
snapshot and clears the error again. -/
theorem c6_amended_failed_tick (s : HookState) (e : JsError) (d : Val) :
    (fetchDesign s (Except.error e)).error = some e ∧
    (fetchDesign s (Except.error e)).design = s.design ∧
    fetchDesign (fetchDesign s (Except.error e)) (Except.ok d) =
      { design := d, loading := false, error := none } :=
  ⟨rfl, rfl, rfl⟩

/-- C7: counterexample.  A message whose text is the JSON string literal
for the two-character string ab is well-formed JSON but is not an object
carrying a field map and a revision marker.  The handler raises no
DecodeError and does not drop the message: the string is object-spread
into the snapshot, adding its character indices as fields, so the snapshot
is modified and the error state stays none. -/
theorem c7_nonobject_message_counterexample :
    lookup (ownProps ((onmessage
      { design := Val.obj [("area", Val.num 100), ("revision", Val.num 1)],
        loading := false, error := none }
      (some (Val.str "ab"))).design)) "0" = some (Val.str "a") ∧
    lookup (ownProps (Val.obj [("area", Val.num 100), ("revision", Val.num 1)])) "0" =
      none ∧
    (onmessage
      { design := Val.obj [("area", Val.num 100), ("revision", Val.num 1)],
        loading := false, error := none }
      (some (Val.str "ab"))).error = none :=
  ⟨rfl, rfl, rfl⟩

/-- C7 (amended): there is no DecodeError handling in the message handler.
A message whose text fails JSON.parse makes the handler throw an uncaught
exception, which leaves the hook state untouched, so later messages are
still processed; a message that parses to any JSON value, object or not,
is object-spread into the snapshot, and in particular a JSON string
contributes one field per character index. -/
theorem c7_amended_message_handling :
    (∀ s : HookState, onmessage s none = s) ∧
    (∀ (s : HookState) (v : Val),
      (onmessage s (some v)).design = applyMessage s.design v ∧
      (onmessage s (some v)).error = s.error ∧
      (onmessage s (some v)).loading = s.loading) ∧
    ownProps (Val.str "ab") = [("0", Val.str "a"), ("1", Val.str "b")] :=
  ⟨fun _ => rfl, fun _ _ => ⟨rfl, rfl, rfl⟩, rfl⟩

/-- C8: a validateChanges call, whether the validation request succeeds or
fails, leaves the snapshot and the loading flag exactly as they were:
validation is a dry run with no effect on the locally held resource
state. -/
theorem c8_validate_never_mutates (s : HookState) (changes : Val)
    (r : Except JsError Val) :
    ((validateChanges s changes r).1).design = s.design ∧
    ((validateChanges s changes r).1).loading = s.loading := by
  cases r with
  | ok d => exact ⟨rfl, rfl⟩
  | error e => exact ⟨rfl, rfl⟩

/-- C9: once a fetch has succeeded with some body, a later failed fetch,
whether a plain poll tick or one triggered through refresh, keeps the
previously obtained snapshot unchanged, records the failure as the current
error, and leaves the loading flag false once the failed fetch settles. -/
theorem c9_failed_fetch_retains_snapshot (s0 : HookState) (d : Val) (e : JsError) :
    (fetchDesign (fetchDesign s0 (Except.ok d)) (Except.error e)).design = d ∧
    (fetchDesign (fetchDesign s0 (Except.ok d)) (Except.error e)).error = some e ∧
    (fetchDesign (fetchDesign s0 (Except.ok d)) (Except.error e)).loading = false ∧
    (fetchDesign (refresh (fetchDesign s0 (Except.ok d))) (Except.error e)).design = d ∧
    (fetchDesign (refresh (fetchDesign s0 (Except.ok d))) (Except.error e)).loading =
      false :=
  ⟨rfl, rfl, rfl, rfl, rfl⟩

/-- C10: every successful fetch and every successful patch replaces the
snapshot wholesale with the response body, so that every key of the new
snapshot is read from the response and keys present before but absent from
the response are gone, whereas a push message is merged field-wise: its
keys overwrite, and keys it omits keep their previous values. -/
theorem c10_wholesale_vs_fieldwise (s : HookState) (d u : Val) :
    (fetchDesign s (Except.ok d)).design = d ∧
    ((updateDesign s u (Except.ok d)).1).design = d ∧
    (∀ k, lookup (ownProps ((fetchDesign s (Except.ok d)).design)) k =
      lookup (ownProps d) k) ∧
    (∀ k, lookup (ownProps ((onmessage s (some u)).design)) k =
      match lookup (ownProps u) k with
      | some w => some w
      | none => lookup (ownProps s.design) k) :=
  ⟨rfl, rfl, fun _ => rfl, fun k => lookup_mergeObj _ _ k⟩

end DesignSynapse
